import Mathlib

/-!
# Verification of the robot control protocol (`src/main.py`)

Shallow embedding of the algorithmic core of `main.py`:

* `RobotProtocol` — the pure frame codec (`calculate_checksum`,
  `create_movement_command`, `create_speed_command`, `create_angle_command`,
  `decode_angle_from_byte`) and the inbound decoder
  `RobotMobileApp.decode_response`.
* `TCPClient` — the connection manager (`connect`, `disconnect`,
  `send_data`, `_receive_loop`), modelled as explicit state passing over a
  `TCPClientState` record, with the network's behaviour supplied as an
  explicit outcome/event parameter.

Bytes are modelled as `Nat` (the Python code only ever stores values
0–255 in them; `& 0xFF` is `% 256`).  Python floats in the angle path are
modelled as exact rationals (`ℚ`); Python `int()` on a non-negative value
is `Int.floor`/`Int.toNat`.  Python functions that may return `None`
become `Option`-valued Lean functions.
-/

namespace RobotProtocol

/-- Embedding of `RobotProtocol.calculate_checksum` (main.py lines 52–69).
If the input is empty the result is `0`; if it starts with the header
`AA 55` the bytes after the header are summed, otherwise all bytes are
summed; the running sum is truncated to the low 8 bits at every step
(`(checksum + byte) & 0xFF`). -/
def calculate_checksum (data_bytes : List Nat) : Nat :=
  if data_bytes = [] then 0
  else
    let checksum_bytes :=
      if 2 ≤ data_bytes.length ∧ data_bytes.getD 0 0 = 0xAA ∧
          data_bytes.getD 1 0 = 0x55 then
        data_bytes.drop 2
      else
        data_bytes
    checksum_bytes.foldl (fun checksum byte => (checksum + byte) % 256) 0

/-- The `commands` direction lookup table inside `create_movement_command`
(main.py lines 77–84): directions 1–6 map to the bytes 0x01–0x06, anything
else is absent. -/
def movement_direction_byte (direction : Nat) : Option Nat :=
  match direction with
  | 1 => some 0x01
  | 2 => some 0x02
  | 3 => some 0x03
  | 4 => some 0x04
  | 5 => some 0x05
  | 6 => some 0x06
  | _ => none

/-- Embedding of `RobotProtocol.create_movement_command` (main.py lines 71–97).
Returns `none` when the direction is not in the lookup table; otherwise
builds `AA 55 04 80 [id] [dir] [checksum]`.  `id_byte` is a byte value
(Python's `bytes([id_byte])` requires 0–255). -/
def create_movement_command (direction : Nat) (id_byte : Nat) :
    Option (List Nat) :=
  match movement_direction_byte direction with
  | none => none
  | some dir_byte =>
    let frame_data : List Nat := [0x04, 0x80, id_byte, dir_byte]
    let checksum := calculate_checksum ([0xAA, 0x55] ++ frame_data)
    some ([0xAA, 0x55] ++ frame_data ++ [checksum])

/-- Embedding of `RobotProtocol.create_speed_command` (main.py lines 99–121).
Clamps `speed_rpm` to [0,115] and `accel_time` to [0,255] (Python:
`max(0, min(115, int(speed_rpm)))`, modelled on `ℤ` where `int` is the
identity), then builds `AA 55 07 81 01 [id] [speed] [accel] [checksum]`. -/
def create_speed_command (speed_rpm : Int) (accel_time : Int)
    (id_byte : Nat) : List Nat :=
  let speed : Int := max 0 (min 115 speed_rpm)
  let accel : Int := max 0 (min 255 accel_time)
  let frame_data : List Nat :=
    [0x07, 0x81, 0x01, id_byte, speed.toNat, accel.toNat]
  let checksum := calculate_checksum ([0xAA, 0x55] ++ frame_data)
  [0xAA, 0x55] ++ frame_data ++ [checksum]

/-- Embedding of `RobotProtocol.create_angle_command` (main.py lines 123–145).
Clamps the angle to [0.0,180.0], maps it through the (identity) linear
formula `angle * 180.0 / 180.0`, truncates to an integer (`int()` on a
non-negative value is the floor), clamps the byte to [0,255], then builds
`AA 55 07 81 02 [id] [angle] 00 [checksum]`.  Python floats are modelled
as exact rationals. -/
def create_angle_command (angle_degrees : ℚ) (id_byte : Nat) : List Nat :=
  let clamped : ℚ := max 0 (min 180 angle_degrees)
  let angle_byte : Nat := (⌊clamped * 180 / 180⌋).toNat
  let angle_byte : Nat := max 0 (min 255 angle_byte)
  let frame_data : List Nat :=
    [0x07, 0x81, 0x02, id_byte, angle_byte, 0x00]
  let checksum := calculate_checksum ([0xAA, 0x55] ++ frame_data)
  [0xAA, 0x55] ++ frame_data ++ [checksum]

/-- Embedding of `RobotProtocol.decode_angle_from_byte` (main.py lines 147–153):
`angle_byte * 180.0 / 180.0`, with floats modelled as exact rationals. -/
def decode_angle_from_byte (angle_byte : Nat) : ℚ :=
  (angle_byte : ℚ) * 180 / 180

end RobotProtocol

/-- The structured content of the strings produced by
`RobotMobileApp.decode_response` (main.py lines 1080–1139).  The Python
function formats the decoded fields into a human-readable string; this
variant records the decoded fields themselves (for the angle branch both
the decoded degrees and the raw byte appear in the string). -/
inductive DecodedResponse where
  | movement (id_byte direction_code : Nat)
  | speed (id_byte speed accel : Nat)
  | angle (angle_degrees : ℚ) (angle_byte : Nat)
deriving DecidableEq

namespace RobotMobileApp

open RobotProtocol

/-- Embedding of `RobotMobileApp.decode_response` (main.py lines 1080–1139).
Returns `none` for fewer than 6 bytes or a wrong header; then dispatches:
length 6 with `data[2]=0x04, data[3]=0x80` is a movement response
(id = byte 4, direction code = byte 5); length 8 with
`data[2]=0x07, data[3]=0x81, data[4]=0x01` is a speed response
(id = byte 5, speed = byte 6, accel = byte 7); length 8 with
`data[2]=0x07, data[3]=0x81, data[4]=0x02` is an angle response
(degrees decoded from byte 6); everything else is `none`.  The hex string
the Python code computes on line 1089 is never used and is omitted. -/
def decode_response (data : List Nat) : Option DecodedResponse :=
  if data.length < 6 then none
  else if data.getD 0 0 ≠ 0xAA ∨ data.getD 1 0 ≠ 0x55 then none
  else if data.length = 6 ∧ data.getD 2 0 = 0x04 ∧ data.getD 3 0 = 0x80 then
    some (.movement (data.getD 4 0) (data.getD 5 0))
  else if data.length = 8 ∧ data.getD 2 0 = 0x07 ∧ data.getD 3 0 = 0x81 ∧
      data.getD 4 0 = 0x01 then
    some (.speed (data.getD 5 0) (data.getD 6 0) (data.getD 7 0))
  else if data.length = 8 ∧ data.getD 2 0 = 0x07 ∧ data.getD 3 0 = 0x81 ∧
      data.getD 4 0 = 0x02 then
    some (.angle (decode_angle_from_byte (data.getD 6 0)) (data.getD 6 0))
  else none

/-! ### A subscript-checked rendition of `decode_response`

Python raises `IndexError` on an out-of-range subscript.  To state that
`decode_response` never raises, the function is replayed with every
subscript `data[i]` modelled by the partial access `data.get? i` (and
Python's short-circuit `and` in the branch conditions modelled by nested
conditionals, so a subscript is only evaluated when the code evaluates
it).  The outer `Option` is the exception layer: `none` would mean an
uncaught `IndexError`; `some r` means the call returns `r` normally. -/

/-- The movement branch condition
`len(data) == 6 and data[2] == 0x04 and data[3] == 0x80` with checked,
short-circuited subscripts. -/
def movement_cond_checked (data : List Nat) : Option Bool :=
  if data.length = 6 then
    (data.get? 2).bind fun b2 =>
      if b2 = 0x04 then
        (data.get? 3).bind fun b3 => some (decide (b3 = 0x80))
      else some false
  else some false

/-- The speed branch condition `len(data) == 8 and data[2] == 0x07 and
data[3] == 0x81 and data[4] == 0x01` with checked subscripts. -/
def speed_cond_checked (data : List Nat) : Option Bool :=
  if data.length = 8 then
    (data.get? 2).bind fun b2 =>
      if b2 = 0x07 then
        (data.get? 3).bind fun b3 =>
          if b3 = 0x81 then
            (data.get? 4).bind fun b4 => some (decide (b4 = 0x01))
          else some false
      else some false
  else some false

/-- The angle branch condition `len(data) == 8 and data[2] == 0x07 and
data[3] == 0x81 and data[4] == 0x02` with checked subscripts. -/
def angle_cond_checked (data : List Nat) : Option Bool :=
  if data.length = 8 then
    (data.get? 2).bind fun b2 =>
      if b2 = 0x07 then
        (data.get? 3).bind fun b3 =>
          if b3 = 0x81 then
            (data.get? 4).bind fun b4 => some (decide (b4 = 0x02))
          else some false
      else some false
  else some false

/-- Replay of `decode_response` with every Python subscript checked.  The movement
branch mirrors the conditional expressions
`data[5] if len(data) > 5 else 0` and `data[4] if len(data) > 4 else 0`
of the source. -/
def decode_response_checked (data : List Nat) :
    Option (Option DecodedResponse) :=
  if data.length < 6 then some none
  else
    (data.get? 0).bind fun b0 =>
    (data.get? 1).bind fun b1 =>
    if b0 ≠ 0xAA ∨ b1 ≠ 0x55 then some none
    else
      (movement_cond_checked data).bind fun mov =>
      if mov then
        (if 5 < data.length then data.get? 5 else some 0).bind
          fun direction =>
        (if 4 < data.length then data.get? 4 else some 0).bind
          fun id_byte =>
        some (some (.movement id_byte direction))
      else
        (speed_cond_checked data).bind fun sp =>
        if sp then
          (data.get? 5).bind fun id_byte =>
          (data.get? 6).bind fun speed =>
          (data.get? 7).bind fun accel =>
          some (some (.speed id_byte speed accel))
        else
          (angle_cond_checked data).bind fun an =>
          if an then
            (data.get? 6).bind fun angle_byte =>
            some (some
              (.angle (decode_angle_from_byte angle_byte) angle_byte))
          else some none

/-- The three `(length, LEN, TYPE, SUBTYPE)` combinations accepted by
`decode_response`: the movement, speed and angle response shapes. -/
def known_shape (data : List Nat) : Prop :=
  (data.length = 6 ∧ data.getD 2 0 = 0x04 ∧ data.getD 3 0 = 0x80) ∨
  (data.length = 8 ∧ data.getD 2 0 = 0x07 ∧ data.getD 3 0 = 0x81 ∧
    data.getD 4 0 = 0x01) ∨
  (data.length = 8 ∧ data.getD 2 0 = 0x07 ∧ data.getD 3 0 = 0x81 ∧
    data.getD 4 0 = 0x02)

instance (data : List Nat) : Decidable (known_shape data) := by
  unfold known_shape; infer_instance

end RobotMobileApp

/-! ## The connection manager (`TCPClient`, main.py lines 161–231)

The socket is an external resource; its behaviour in a call is supplied
as an explicit outcome (for `connect` and `send_data`) or a list of per-
iteration receive events (for `_receive_loop`).  `send_data` additionally
reports the list of operations it performed on the socket. -/

namespace TCPClient

/-- The mutable fields of a `TCPClient` instance that the claims are
about: `self.socket` (an abstract handle, `none` when Python holds
`None`), `self.is_connected`, `self.host` and `self.port`. -/
structure TCPClientState where
  sock : Option Nat
  is_connected : Bool
  host : String
  port : Nat
deriving DecidableEq

/-- Outcome of the `socket.connect` attempt inside `TCPClient.connect`:
Python assigns the freshly created socket object to `self.socket` before
attempting to connect, so every outcome carries the new handle. -/
inductive ConnectOutcome where
  | success (handle : Nat)
  | timeout (handle : Nat)
  | refused (handle : Nat)
  | other (handle : Nat) (msg : String)
deriving DecidableEq

/-- Embedding of `TCPClient.connect` (main.py lines 176–197).  On success the state
becomes connected with the new socket, host and port, and the method
returns `(True, "连接成功")`; on `socket.timeout`, `ConnectionRefusedError`
or any other exception the freshly created socket is still stored in
`self.socket` but `is_connected` is untouched, and the corresponding
`(False, message)` pair is returned.  (Starting the receive thread is
modelled separately by `receive_loop`.) -/
def connect (c : TCPClientState) (host : String) (port : Nat)
    (outcome : ConnectOutcome) : TCPClientState × (Bool × String) :=
  match outcome with
  | .success h =>
    ({ sock := some h, is_connected := true, host := host, port := port },
      (true, "连接成功"))
  | .timeout h => ({ c with sock := some h }, (false, "连接超时"))
  | .refused h => ({ c with sock := some h }, (false, "连接被拒绝"))
  | .other h msg =>
    ({ c with sock := some h }, (false, "连接失败: " ++ msg))

/-- Embedding of `TCPClient.disconnect` (main.py lines 199–207).  When a socket is
present: set `is_connected` to `False`, close the socket (close-time
errors are swallowed) and set `self.socket` to `None`.  When no socket is
present the method does nothing. -/
def disconnect (c : TCPClientState) : TCPClientState :=
  if c.sock.isSome then { c with is_connected := false, sock := none }
  else c

/-- An operation performed on the socket by `send_data`. -/
inductive SocketOp where
  | sendall (data : List Nat)
deriving DecidableEq

/-- Embedding of `TCPClient.send_data` (main.py lines 209–219).  If not connected or
the socket is `None`, returns `(False, "未连接")` without touching the
socket or the state.  Otherwise calls `sendall` (recorded in the
operation trace); on success returns `(True, "发送成功")`, and an
exception (`sendall_error = some e`) flips `is_connected` to `False` and
returns `(False, "发送失败: " ++ e)`. -/
def send_data (c : TCPClientState) (data : List Nat)
    (sendall_error : Option String) :
    TCPClientState × (Bool × String) × List SocketOp :=
  if ¬ c.is_connected ∨ c.sock = none then (c, (false, "未连接"), [])
  else
    match sendall_error with
    | none => (c, (true, "发送成功"), [SocketOp.sendall data])
    | some e =>
      ({ c with is_connected := false }, (false, "发送失败: " ++ e),
        [SocketOp.sendall data])

/-- The outcome of one `self.socket.recv(1024)` call inside
`_receive_loop`: a chunk of bytes (possibly empty), a `socket.timeout`,
or any other exception. -/
inductive RecvEvent where
  | chunk (data : List Nat)
  | timeout
  | error
deriving DecidableEq

/-- Embedding of `TCPClient._receive_loop` (main.py lines 221–231), driven by the
finite list of observed receive events.  The loop runs while
`is_connected` and a socket is present; a non-empty chunk is delivered to
the callback (when one is registered), a timeout continues the loop, any
other exception breaks out of it.  Returns the client state as the loop
left it together with the chunks delivered to the callback, in order. -/
def receive_loop (c : TCPClientState) (has_callback : Bool) :
    List RecvEvent → TCPClientState × List (List Nat)
  | [] => (c, [])
  | ev :: rest =>
    if c.is_connected ∧ c.sock.isSome then
      match ev with
      | .chunk d =>
        let r := receive_loop c has_callback rest
        (r.1, if d ≠ [] ∧ has_callback then d :: r.2 else r.2)
      | .timeout => receive_loop c has_callback rest
      | .error => (c, [])
    else (c, [])

end TCPClient

/-! ## Helper lemmas -/

namespace RobotProtocol

/-- Folding `(· + ·) % 256` from an accumulator below 256 computes the
sum modulo 256. -/
lemma foldl_add_mod (l : List Nat) :
    ∀ c : Nat, c < 256 →
      l.foldl (fun checksum byte => (checksum + byte) % 256) c =
        (c + l.sum) % 256 := by
  induction l with
  | nil =>
    intro c hc
    simp [Nat.mod_eq_of_lt hc]
  | cons b t ih =>
    intro c hc
    have hlt : (c + b) % 256 < 256 := Nat.mod_lt _ (by norm_num)
    simp only [List.foldl_cons, List.sum_cons]
    rw [ih _ hlt, Nat.mod_add_mod]
    ring_nf

/-- Lemma: `calculate_checksum` on data that starts with the header sums the
bytes after the header, modulo 256. -/
lemma calculate_checksum_of_header (data : List Nat)
    (hlen : 2 ≤ data.length) (h0 : data.getD 0 0 = 0xAA)
    (h1 : data.getD 1 0 = 0x55) :
    calculate_checksum data = (data.drop 2).sum % 256 := by
  have hne : data ≠ [] := by
    intro h
    rw [h] at hlen
    simp at hlen
  unfold calculate_checksum
  rw [if_neg hne, if_pos ⟨hlen, h0, h1⟩]
  simpa using foldl_add_mod (data.drop 2) 0 (by norm_num)

/-- Lemma: `calculate_checksum` on data that does not start with the header sums
all bytes, modulo 256. -/
lemma calculate_checksum_of_no_header (data : List Nat)
    (h : ¬(2 ≤ data.length ∧ data.getD 0 0 = 0xAA ∧
      data.getD 1 0 = 0x55)) :
    calculate_checksum data = data.sum % 256 := by
  unfold calculate_checksum
  by_cases hne : data = []
  · simp [hne]
  · rw [if_neg hne, if_neg h]
    simpa using foldl_add_mod data 0 (by norm_num)

end RobotProtocol

namespace RobotMobileApp

/-- The subscript-checked replay of `decode_response` never hits an
out-of-range access and agrees with `decode_response`. -/
lemma decode_response_checked_eq (data : List Nat) :
    decode_response_checked data = some (decode_response data) := by
  rcases data with _ | ⟨x0, _ | ⟨x1, _ | ⟨x2, _ | ⟨x3, _ | ⟨x4, _ |
    ⟨x5, _ | ⟨x6, _ | ⟨x7, _ | ⟨x8, rest⟩⟩⟩⟩⟩⟩⟩⟩⟩
  · simp [decode_response_checked, decode_response]
  · simp [decode_response_checked, decode_response]
  · simp [decode_response_checked, decode_response]
  · simp [decode_response_checked, decode_response]
  · simp [decode_response_checked, decode_response]
  · simp [decode_response_checked, decode_response]
  · simp [decode_response_checked, decode_response, movement_cond_checked,
      speed_cond_checked, angle_cond_checked]
    split_ifs <;> simp_all
  · simp [decode_response_checked, decode_response, movement_cond_checked,
      speed_cond_checked, angle_cond_checked]
  · simp [decode_response_checked, decode_response, movement_cond_checked,
      speed_cond_checked, angle_cond_checked]
    split_ifs <;> simp_all
  · have h6 : (x0::x1::x2::x3::x4::x5::x6::x7::x8::rest).length ≠ 6 := by
      simp
    have h8 : (x0::x1::x2::x3::x4::x5::x6::x7::x8::rest).length ≠ 8 := by
      simp
    have hge : ¬ ((x0::x1::x2::x3::x4::x5::x6::x7::x8::rest).length < 6) := by
      simp
    simp [decode_response_checked, decode_response, movement_cond_checked,
      speed_cond_checked, angle_cond_checked, h6, h8, hge]

/-- A successful decode implies at least 6 bytes, the `AA 55` header and
one of the three known response shapes. -/
lemma decode_response_some_shape (data : List Nat) (r : DecodedResponse)
    (h : decode_response data = some r) :
    6 ≤ data.length ∧ data.getD 0 0 = 0xAA ∧ data.getD 1 0 = 0x55 ∧
      known_shape data := by
  unfold decode_response at h
  split_ifs at h with h1 h2 h3 h4 h5
  · push_neg at h2
    exact ⟨by omega, h2.1, h2.2, Or.inl h3⟩
  · push_neg at h2
    exact ⟨by omega, h2.1, h2.2, Or.inr (Or.inl h4)⟩
  · push_neg at h2
    exact ⟨by omega, h2.1, h2.2, Or.inr (Or.inr h5)⟩

end RobotMobileApp

namespace TCPClient

/-- Lemma: `_receive_loop` never writes any field of the client: the state it
leaves behind is the state it started with. -/
lemma receive_loop_fst (c : TCPClientState) (cb : Bool) :
    ∀ events : List RecvEvent, (receive_loop c cb events).1 = c := by
  intro events
  induction events with
  | nil => rfl
  | cons ev rest ih =>
    simp only [receive_loop]
    split_ifs with h
    · cases ev
      · simpa using ih
      · simpa using ih
      · rfl
    · rfl

end TCPClient

/-! ## The claims -/

/-- Claim C1 (confirmed).  For every direction in {1,…,6} and every id in {0,…,4},
`create_movement_command` returns a frame of exactly 7 bytes whose first
two bytes are `0xAA 0x55`, whose LEN byte at index 2 is `0x04`, whose
TYPE byte at index 3 is `0x80`, and whose last byte equals
`calculate_checksum` applied to bytes 2 through 5 of that frame. -/
theorem c1_movement_frame_shape (direction id_byte : Nat)
    (hd1 : 1 ≤ direction) (hd6 : direction ≤ 6) (hid : id_byte ≤ 4) :
    ∃ cmd : List Nat,
      RobotProtocol.create_movement_command direction id_byte = some cmd ∧
      cmd.length = 7 ∧
      cmd.getD 0 0 = 0xAA ∧ cmd.getD 1 0 = 0x55 ∧
      cmd.getD 2 0 = 0x04 ∧ cmd.getD 3 0 = 0x80 ∧
      cmd.getD 6 0 =
        RobotProtocol.calculate_checksum ((cmd.drop 2).take 4) := by
  refine
    ⟨(RobotProtocol.create_movement_command direction id_byte).getD [], ?_⟩
  interval_cases direction <;> interval_cases id_byte <;> decide

/-- Witness for C1 at `direction = 1`, `id = 0`. -/
theorem c1_movement_frame_shape_witness :
    ∃ cmd : List Nat,
      RobotProtocol.create_movement_command 1 0 = some cmd ∧
      cmd.length = 7 ∧
      cmd.getD 0 0 = 0xAA ∧ cmd.getD 1 0 = 0x55 ∧
      cmd.getD 2 0 = 0x04 ∧ cmd.getD 3 0 = 0x80 ∧
      cmd.getD 6 0 =
        RobotProtocol.calculate_checksum ((cmd.drop 2).take 4) :=
  c1_movement_frame_shape 1 0 (by decide) (by decide) (by decide)

/-- Claim C4, counterexample.  The claim states that
`create_movement_command 1 0x00` is `AA 55 04 80 00 01 86`; on the code
the checksum byte is `(0x04 + 0x80 + 0x00 + 0x01) % 256 = 0x85`, so the
claimed frame is not produced. -/
theorem c4_counterexample :
    RobotProtocol.create_movement_command 1 0x00 ≠
      some [0xAA, 0x55, 0x04, 0x80, 0x00, 0x01, 0x86] := by
  decide

/-- Claim C4, amended.  `create_movement_command 1 0x00` returns exactly
the 7 bytes `AA 55 04 80 00 01 85`. -/
theorem c4_movement_exact_bytes :
    RobotProtocol.create_movement_command 1 0x00 =
      some [0xAA, 0x55, 0x04, 0x80, 0x00, 0x01, 0x85] := by
  decide

/-- Claim C5 (confirmed).  On a byte sequence whose first two bytes are `0xAA 0x55`,
`calculate_checksum` returns the sum of all bytes strictly after the
first two, modulo 256; on a byte sequence that does not begin with
`0xAA 0x55` it returns the sum of all of its bytes modulo 256. -/
theorem c5_checksum_spec (data : List Nat) :
    (2 ≤ data.length ∧ data.getD 0 0 = 0xAA ∧ data.getD 1 0 = 0x55 →
      RobotProtocol.calculate_checksum data = (data.drop 2).sum % 256) ∧
    (¬ (2 ≤ data.length ∧ data.getD 0 0 = 0xAA ∧ data.getD 1 0 = 0x55) →
      RobotProtocol.calculate_checksum data = data.sum % 256) :=
  ⟨fun h => RobotProtocol.calculate_checksum_of_header data h.1 h.2.1 h.2.2,
   fun h => RobotProtocol.calculate_checksum_of_no_header data h⟩

/-- Witness for C5: one input with the header, one without. -/
theorem c5_checksum_spec_witness :
    RobotProtocol.calculate_checksum [0xAA, 0x55, 0x04, 0x80, 0x02, 0x03] =
      (([0xAA, 0x55, 0x04, 0x80, 0x02, 0x03] : List Nat).drop 2).sum %
        256 ∧
    RobotProtocol.calculate_checksum [0x04, 0x80, 0x02, 0x03] =
      ([0x04, 0x80, 0x02, 0x03] : List Nat).sum % 256 :=
  ⟨(c5_checksum_spec _).1 (by decide), (c5_checksum_spec _).2 (by decide)⟩

/-- Claim C2, counterexample.  The claim says the output of
`create_speed_command` is always exactly 10 bytes; on the code the frame
`AA 55 07 81 01 [id] [speed] [accel] [checksum]` has 9 bytes. -/
theorem c2_counterexample :
    (RobotProtocol.create_speed_command 0 0 0).length = 9 ∧
    ¬ (RobotProtocol.create_speed_command 0 0 0).length = 10 := by
  decide

/-- Claim C2, amended.  For every speed in [−50,300], accel in [−10,400]
and any id byte, `create_speed_command` clamps speed to [0,115] and
accel to [0,255] before encoding, and its output is always exactly
**9** bytes with LEN byte `0x07`, TYPE byte `0x81` and SUBTYPE byte
`0x01` (the clamping holds for all integer inputs; the stated ranges are
kept as hypotheses from the claim). -/
theorem c2_speed_clamp_frame (speed accel : Int) (id_byte : Nat)
    (hs1 : -50 ≤ speed) (hs2 : speed ≤ 300)
    (ha1 : -10 ≤ accel) (ha2 : accel ≤ 400) :
    (RobotProtocol.create_speed_command speed accel id_byte).length = 9 ∧
    (RobotProtocol.create_speed_command speed accel id_byte).getD 2 0 =
      0x07 ∧
    (RobotProtocol.create_speed_command speed accel id_byte).getD 3 0 =
      0x81 ∧
    (RobotProtocol.create_speed_command speed accel id_byte).getD 4 0 =
      0x01 ∧
    (RobotProtocol.create_speed_command speed accel id_byte).getD 6 0 =
      (max 0 (min 115 speed)).toNat ∧
    (RobotProtocol.create_speed_command speed accel id_byte).getD 7 0 =
      (max 0 (min 255 accel)).toNat := by
  simp [RobotProtocol.create_speed_command]

/-- Witness for C2 (amended) at `speed = 200`, `accel = 300`,
`id = 0`. -/
theorem c2_speed_clamp_frame_witness :
    (RobotProtocol.create_speed_command 200 300 0).length = 9 ∧
    (RobotProtocol.create_speed_command 200 300 0).getD 2 0 = 0x07 ∧
    (RobotProtocol.create_speed_command 200 300 0).getD 3 0 = 0x81 ∧
    (RobotProtocol.create_speed_command 200 300 0).getD 4 0 = 0x01 ∧
    (RobotProtocol.create_speed_command 200 300 0).getD 6 0 =
      (max 0 (min 115 (200 : Int))).toNat ∧
    (RobotProtocol.create_speed_command 200 300 0).getD 7 0 =
      (max 0 (min 255 (300 : Int))).toNat :=
  c2_speed_clamp_frame 200 300 0 (by decide) (by decide) (by decide)
    (by decide)

/-- Claim C3, counterexample.  The encoder output carries a trailing
checksum byte (9 bytes for a speed command), while the decoder only
accepts 8-byte speed frames, so feeding the speed encoder's output
directly through the decoder yields `none` instead of recovering the
fields. -/
theorem c3_counterexample :
    RobotMobileApp.decode_response
      (RobotProtocol.create_speed_command 50 10 0) = none := by
  decide

/-- Claim C3, amended.  With the trailing checksum byte removed from the
encoder output (`List.dropLast`, the response shape of the command), the
decoder recovers the clamped speed, the clamped accel and the id; the
same round trip holds for the angle shape (recovering the clamped,
floor-truncated angle) and for the movement shape (recovering the id and
the direction). -/
theorem c3_roundtrip_sans_checksum :
    (∀ (s a : Int) (i : Nat),
      RobotMobileApp.decode_response
          (RobotProtocol.create_speed_command s a i).dropLast =
        some (.speed i (max 0 (min 115 s)).toNat
          (max 0 (min 255 a)).toNat)) ∧
    (∀ (d i : Nat), 1 ≤ d → d ≤ 6 →
      ∃ cmd : List Nat,
        RobotProtocol.create_movement_command d i = some cmd ∧
        RobotMobileApp.decode_response cmd.dropLast =
          some (.movement i d)) ∧
    (∀ (q : ℚ) (i : Nat),
      RobotMobileApp.decode_response
          (RobotProtocol.create_angle_command q i).dropLast =
        some (.angle ((⌊max 0 (min 180 q)⌋.toNat : ℚ))
          ⌊max 0 (min 180 q)⌋.toNat)) := by
  refine ⟨?_, ?_, ?_⟩
  · intro s a i
    simp [RobotProtocol.create_speed_command,
      RobotMobileApp.decode_response]
  · intro d i hd1 hd6
    interval_cases d <;>
      exact ⟨_, rfl, by
        simp [RobotProtocol.create_movement_command,
          RobotProtocol.movement_direction_byte,
          RobotMobileApp.decode_response]⟩
  · intro q i
    have hclamp : max 0 (min 180 q) * 180 / 180 = max 0 (min 180 q) := by
      field_simp
    have hle : max 0 (min 180 q) ≤ 180 := by
      rcases le_total (180 : ℚ) q with h | h <;> simp [min_def, max_def] <;>
        split_ifs <;> linarith
    have hfloorZ : ⌊max 0 (min 180 q)⌋ ≤ 180 := by
      have h1 : ⌊max 0 (min 180 q)⌋ ≤ ⌊(180 : ℚ)⌋ := Int.floor_le_floor hle
      have h2 : ⌊(180 : ℚ)⌋ = 180 := by norm_num
      omega
    have hfloor : (⌊max 0 (min 180 q)⌋).toNat ≤ 180 := by omega
    have hbyte :
        max 0 (min 255 (⌊max 0 (min 180 q) * 180 / 180⌋).toNat) =
          (⌊max 0 (min 180 q)⌋).toNat := by
      rw [hclamp]
      have : min 255 (⌊max 0 (min 180 q)⌋).toNat =
          (⌊max 0 (min 180 q)⌋).toNat :=
        Nat.min_eq_right (by omega)
      omega
    simp [RobotProtocol.create_angle_command, hbyte,
      RobotMobileApp.decode_response, RobotProtocol.decode_angle_from_byte]
    omega

/-- Witness for C3 (amended), evaluated at `speed = 50, accel = 10,
id = 2`, `direction = 3, id = 1`, and `angle = 90.5, id = 0`. -/
theorem c3_roundtrip_sans_checksum_witness :
    RobotMobileApp.decode_response
        (RobotProtocol.create_speed_command 50 10 2).dropLast =
      some (.speed 2 (max 0 (min 115 (50 : Int))).toNat
        (max 0 (min 255 (10 : Int))).toNat) ∧
    (∃ cmd : List Nat,
      RobotProtocol.create_movement_command 3 1 = some cmd ∧
      RobotMobileApp.decode_response cmd.dropLast =
        some (.movement 1 3)) ∧
    RobotMobileApp.decode_response
        (RobotProtocol.create_angle_command (181 / 2 : ℚ) 0).dropLast =
      some (.angle ((⌊max 0 (min 180 (181 / 2 : ℚ))⌋.toNat : ℚ))
        ⌊max 0 (min 180 (181 / 2 : ℚ))⌋.toNat) :=
  ⟨c3_roundtrip_sans_checksum.1 50 10 2,
   c3_roundtrip_sans_checksum.2.1 3 1 (by decide) (by decide),
   c3_roundtrip_sans_checksum.2.2 (181 / 2 : ℚ) 0⟩

/-- Claim C6, counterexample.  The claim says a 6-byte `AA 55`-headed
input with TYPE byte `0x80` decodes to a Movement response regardless of
the byte at index 2; the code also requires `data[2] == 0x04`, so with
`data[2] = 0x00` the decoder returns `none`. -/
theorem c6_counterexample :
    RobotMobileApp.decode_response [0xAA, 0x55, 0x00, 0x80, 0x00, 0x01] =
      none ∧
    RobotMobileApp.decode_response [0xAA, 0x55, 0x00, 0x80, 0x00, 0x01] ≠
      some (.movement 0x00 0x01) := by
  decide

/-- Claim C6, amended.  For every 6-byte input whose first two bytes are
`0xAA 0x55`, whose LEN byte at index 2 is `0x04` and whose TYPE byte at
index 3 is `0x80`, `decode_response` returns a Movement response with id
equal to the byte at index 4 and direction code equal to the byte at
index 5. -/
theorem c6_movement_decode (data : List Nat)
    (hlen : data.length = 6) (h0 : data.getD 0 0 = 0xAA)
    (h1 : data.getD 1 0 = 0x55) (h2 : data.getD 2 0 = 0x04)
    (h3 : data.getD 3 0 = 0x80) :
    RobotMobileApp.decode_response data =
      some (.movement (data.getD 4 0) (data.getD 5 0)) := by
  unfold RobotMobileApp.decode_response
  rw [if_neg (by omega), if_neg (by simp only [h0, h1]; norm_num),
    if_pos ⟨hlen, h2, h3⟩]

/-- Witness for C6 (amended) at `AA 55 04 80 02 03`. -/
theorem c6_movement_decode_witness :
    RobotMobileApp.decode_response [0xAA, 0x55, 0x04, 0x80, 0x02, 0x03] =
      some (.movement 0x02 0x03) := by
  have := c6_movement_decode [0xAA, 0x55, 0x04, 0x80, 0x02, 0x03]
    (by decide) (by decide) (by decide) (by decide) (by decide)
  simpa using this

/-- Claim C7 (confirmed).  `decode_response` returns `none` on fewer than 6 bytes, on
a wrong header byte, or when the `(length, LEN, TYPE, SUBTYPE)`
combination matches none of the three known response shapes; and on any
input whatsoever the subscript-checked replay of the function returns
normally (it never raises), agreeing with `decode_response`. -/
theorem c7_decode_rejects_malformed (data : List Nat) :
    (data.length < 6 ∨ data.getD 0 0 ≠ 0xAA ∨ data.getD 1 0 ≠ 0x55 ∨
        ¬ RobotMobileApp.known_shape data →
      RobotMobileApp.decode_response data = none) ∧
    RobotMobileApp.decode_response_checked data =
      some (RobotMobileApp.decode_response data) := by
  refine ⟨fun h => ?_, RobotMobileApp.decode_response_checked_eq data⟩
  cases he : RobotMobileApp.decode_response data with
  | none => rfl
  | some r =>
    have hs := RobotMobileApp.decode_response_some_shape data r he
    rcases h with h | h | h | h
    · have h6 := hs.1
      omega
    · exact absurd hs.2.1 h
    · exact absurd hs.2.2.1 h
    · exact absurd hs.2.2.2 h

/-- Witness for C7 at the 1-byte input `[0xAA]` (fewer than 6 bytes). -/
theorem c7_decode_rejects_malformed_witness :
    RobotMobileApp.decode_response [0xAA] = none :=
  (c7_decode_rejects_malformed [0xAA]).1 (by decide)

/-- Claim C8 (confirmed).  After `disconnect`, any subsequent `send_data` — whatever
bytes it is given and whatever the socket would have answered — returns
`(False, "未连接")` ("not connected"), performs no operation on the
socket, and leaves the connection state unchanged. -/
theorem c8_send_after_disconnect (c : TCPClient.TCPClientState)
    (data : List Nat) (sendall_error : Option String) :
    TCPClient.send_data (TCPClient.disconnect c) data sendall_error =
      (TCPClient.disconnect c, (false, "未连接"), []) := by
  unfold TCPClient.disconnect TCPClient.send_data
  rcases hc : c.sock with _ | s <;> simp [hc]

/-- Claim C9 (confirmed).  `_receive_loop` never changes the client state (in
particular `is_connected`); a non-timeout read error terminates the loop
at once, delivering nothing further; `connect` never flips the flag from
connected to disconnected (it either sets it to `true` or leaves it);
and the operations that do flip the flag to `false` are `send_data` on a
send error and `disconnect`. -/
theorem c9_receive_loop_never_flips :
    (∀ (c : TCPClient.TCPClientState) (cb : Bool)
        (events : List TCPClient.RecvEvent),
      (TCPClient.receive_loop c cb events).1.is_connected =
        c.is_connected) ∧
    (∀ (c : TCPClient.TCPClientState) (cb : Bool)
        (rest : List TCPClient.RecvEvent),
      c.is_connected = true → c.sock.isSome →
      TCPClient.receive_loop c cb (TCPClient.RecvEvent.error :: rest) =
        (c, [])) ∧
    (∀ (c : TCPClient.TCPClientState) (h : String) (p : Nat)
        (o : TCPClient.ConnectOutcome),
      (TCPClient.connect c h p o).1.is_connected = true ∨
      (TCPClient.connect c h p o).1.is_connected = c.is_connected) ∧
    (∀ (c : TCPClient.TCPClientState) (data : List Nat) (e : String),
      c.is_connected = true → c.sock.isSome →
      (TCPClient.send_data c data (some e)).1.is_connected = false) ∧
    (∀ c : TCPClient.TCPClientState, c.sock.isSome →
      (TCPClient.disconnect c).is_connected = false) := by
  refine ⟨?_, ?_, ?_, ?_, ?_⟩
  · intro c cb events
    rw [TCPClient.receive_loop_fst]
  · intro c cb rest hconn hsock
    simp [TCPClient.receive_loop, hconn, hsock]
  · intro c h p o
    cases o <;> simp [TCPClient.connect]
  · intro c data e hconn hsock
    rcases hc : c.sock with _ | s
    · rw [hc] at hsock
      simp at hsock
    · simp [TCPClient.send_data, hconn, hc]
  · intro c hsock
    simp [TCPClient.disconnect, hsock]

/-- Witness for C9 at a concrete connected state. -/
theorem c9_receive_loop_never_flips_witness :
    TCPClient.receive_loop ⟨some 0, true, "h", 1⟩ true
        [TCPClient.RecvEvent.error] = (⟨some 0, true, "h", 1⟩, []) ∧
    (TCPClient.send_data ⟨some 0, true, "h", 1⟩ [1]
        (some "e")).1.is_connected = false ∧
    (TCPClient.disconnect ⟨some 0, true, "h", 1⟩).is_connected = false :=
  ⟨c9_receive_loop_never_flips.2.1 _ true [] rfl rfl,
   c9_receive_loop_never_flips.2.2.2.1 _ [1] "e" rfl rfl,
   c9_receive_loop_never_flips.2.2.2.2 _ rfl⟩

/-- Claim C10 (confirmed).  `decode_response` never computes or verifies a checksum:
two inputs of equal length agreeing on bytes 0–7 decode identically; an
accepted input has total length 6 or 8 (the accepted shapes carry no
checksum slot); and acceptance (`isSome`) depends only on the length,
the header bytes and the LEN/TYPE/SUBTYPE bytes (indices 0–4). -/
theorem c10_no_checksum_in_decode :
    (∀ d1 d2 : List Nat, d1.length = d2.length →
      (∀ i, i < 8 → d1.getD i 0 = d2.getD i 0) →
      RobotMobileApp.decode_response d1 =
        RobotMobileApp.decode_response d2) ∧
    (∀ (d : List Nat) (r : DecodedResponse),
      RobotMobileApp.decode_response d = some r →
      d.length = 6 ∨ d.length = 8) ∧
    (∀ d1 d2 : List Nat, d1.length = d2.length →
      (∀ i, i < 5 → d1.getD i 0 = d2.getD i 0) →
      ((RobotMobileApp.decode_response d1).isSome ↔
        (RobotMobileApp.decode_response d2).isSome)) := by
  refine ⟨?_, ?_, ?_⟩
  · intro d1 d2 hlen hag
    have e0 := hag 0 (by norm_num)
    have e1 := hag 1 (by norm_num)
    have e2 := hag 2 (by norm_num)
    have e3 := hag 3 (by norm_num)
    have e4 := hag 4 (by norm_num)
    have e5 := hag 5 (by norm_num)
    have e6 := hag 6 (by norm_num)
    have e7 := hag 7 (by norm_num)
    unfold RobotMobileApp.decode_response
    rw [hlen, e0, e1, e2, e3, e4, e5, e6, e7]
  · intro d r h
    rcases (RobotMobileApp.decode_response_some_shape d r h).2.2.2 with
      hs | hs | hs
    · exact Or.inl hs.1
    · exact Or.inr hs.1
    · exact Or.inr hs.1
  · intro d1 d2 hlen hag
    have e0 := hag 0 (by norm_num)
    have e1 := hag 1 (by norm_num)
    have e2 := hag 2 (by norm_num)
    have e3 := hag 3 (by norm_num)
    have e4 := hag 4 (by norm_num)
    unfold RobotMobileApp.decode_response
    rw [hlen, e0, e1, e2, e3, e4]
    split_ifs <;> simp

/-- Witness for C10: two 9-byte inputs differing only in the trailing
(checksum-position) byte decode identically; a movement response shows
an accepted length; two movement frames differing only in payload are
both accepted. -/
theorem c10_no_checksum_in_decode_witness :
    (RobotMobileApp.decode_response
        [0xAA, 0x55, 0x04, 0x80, 0x00, 0x01, 0x00, 0x00, 0x05] =
      RobotMobileApp.decode_response
        [0xAA, 0x55, 0x04, 0x80, 0x00, 0x01, 0x00, 0x00, 0x09]) ∧
    (([0xAA, 0x55, 0x04, 0x80, 0x01, 0x02] : List Nat).length = 6 ∨
      ([0xAA, 0x55, 0x04, 0x80, 0x01, 0x02] : List Nat).length = 8) ∧
    ((RobotMobileApp.decode_response
        [0xAA, 0x55, 0x04, 0x80, 0x01, 0x02]).isSome ↔
      (RobotMobileApp.decode_response
        [0xAA, 0x55, 0x04, 0x80, 0x01, 0x03]).isSome) :=
  ⟨c10_no_checksum_in_decode.1 _ _ rfl (by decide),
   c10_no_checksum_in_decode.2.1 _ (.movement 0x01 0x02) (by decide),
   c10_no_checksum_in_decode.2.2 _ _ rfl (by decide)⟩
